import Mathlib

/-!
Shallow embedding of the `jkenda/mandelbrot` camera controllers.

The repository contains three camera-controller variants:

* `Interactive` — `src/interactive/camera_controller.rs`: double-precision
  view-state (`Properties`), continuous drag/zoom/pan, a single-precision
  projection `Properties32`.
* `Simple` — `src/lib.rs`: single-precision view-state, key-hold flags
  integrated once per frame by `update_camera`, plus drag/wheel/reset.
* `Minimal` — `src/main.rs`: single-precision view-state, key-hold flags
  only.

Real-number arithmetic (`f64`/`f32`) is idealised as exact rational
arithmetic `ℚ`; the claims under study are algebraic identities stated in
exact terms.  The one floating-point aspect a claim depends on —
finiteness of the `width as f32 / height as f32` aspect computation — is
modelled by the sum type `FloatVal`, which distinguishes finite values
from infinity and NaN (IEEE-754: `w / 0 = +∞` for `w > 0`, `0 / 0 = NaN`;
a quotient of two `u32`-ranged finite values can neither overflow nor
underflow `f32` to a non-finite value).  The narrowing conversion
`f64 → f32` used by `Properties32::from` is kept abstract as a function
parameter `narrow : ℚ → ℚ`.
-/

/-- A single-precision floating-point value, abstracted to what the claims
need: either a finite value (idealised as an exact rational), positive
infinity, or NaN. -/
inductive FloatVal where
  | finite (val : ℚ)
  | posInf
  | nan
deriving DecidableEq, Repr

/-- Finiteness of a modelled floating-point value. -/
def FloatVal.isFinite : FloatVal → Bool
  | .finite _ => true
  | .posInf => false
  | .nan => false

/-- IEEE-754 division `w as f32 / h as f32` for `u32` operands `w`, `h`:
`w / 0` is `+∞` when `w > 0` and NaN when `w = 0`; otherwise the quotient
is finite (idealised as the exact rational). -/
def f32DivNat (w h : ℕ) : FloatVal :=
  if h = 0 then (if w = 0 then .nan else .posInf) else .finite ((w : ℚ) / (h : ℚ))

/-- Rust `winit::event::ElementState`. -/
inductive ElementState where
  | pressed
  | released
deriving DecidableEq, Repr

/-- The `winit::event::VirtualKeyCode` values the controllers match on;
`other` stands for every remaining key code. -/
inductive VirtualKeyCode where
  | h | j | k | l
  | left | down | up | right
  | a | s
  | pageUp | pageDown
  | space
  | other
deriving DecidableEq, Repr

/-- The `winit::event::WindowEvent` shapes the controllers match on.
`keyboardInput` carries `Option VirtualKeyCode` because the Rust pattern
requires `virtual_keycode: Some(_)`; a `None` key code falls through to
the catch-all arm.  `mouseInputLeft` is a `MouseInput` event with
`button: MouseButton::Left`; mouse input with any other button, and every
other event kind, is `otherEvent` (the `_ => false` arm).  Mouse-wheel
events split into line deltas and pixel deltas following
`winit::event::MouseScrollDelta`. -/
inductive WindowEvent where
  | keyboardInput (state : ElementState) (keycode : Option VirtualKeyCode)
  | mouseInputLeft (state : ElementState)
  | cursorMoved (x y : ℚ)
  | touchpadMagnify (delta : ℚ)
  | mouseWheelLine (x y : ℚ)
  | mouseWheelPixel (x y : ℚ)
  | otherEvent
deriving DecidableEq, Repr

namespace Interactive

/-- Rust struct `Properties` of `src/interactive/camera_controller.rs`: double-precision
center and zoom, single-precision aspect, and the `u32` flag `math64`
telling the shader whether 64-bit arithmetic is required. -/
structure Properties where
  center : ℚ × ℚ
  zoom : ℚ
  aspect : FloatVal
  math64 : ℕ
deriving DecidableEq, Repr

/-- Rust `impl Default for Properties`: center `(-0.75, 0.0)`, zoom `1.2`,
aspect `1.0`, `math64 = 0`. -/
def Properties.default : Properties :=
  { center := (-3/4, 0)
    zoom := 6/5
    aspect := .finite 1
    math64 := 0 }

/-- Rust struct `Properties32`: the single-precision projection uploaded to the GPU
when 64-bit shader arithmetic is unavailable. -/
structure Properties32 where
  center : ℚ × ℚ
  zoom : ℚ
  aspect : FloatVal
  math64 : ℕ
deriving DecidableEq, Repr

/-- Rust `impl From<Properties> for Properties32`: center and zoom are narrowed
`f64 → f32` (the abstract `narrow`), aspect is passed through, and
`math64` is the literal `0`. -/
def Properties32.from (narrow : ℚ → ℚ) (properties : Properties) : Properties32 :=
  { center := (narrow properties.center.1, narrow properties.center.2)
    zoom := narrow properties.zoom
    aspect := properties.aspect
    math64 := 0 }

/-- Rust struct `CameraController` of the interactive variant. -/
structure CameraController where
  window_size : ℚ × ℚ
  properties : Properties
  speed : ℚ
  mouse_position : ℚ × ℚ
  is_mouse_left_pressed : Bool
deriving DecidableEq, Repr

/-- Method `CameraController::new(speed, width, height)`. -/
def CameraController.new (speed : ℚ) (width height : ℕ) : CameraController :=
  { window_size := ((width : ℚ), (height : ℚ))
    properties := Properties.default
    speed := speed
    mouse_position := (0, 0)
    is_mouse_left_pressed := false }

/-- Method `CameraController::properties32`. -/
def CameraController.properties32 (narrow : ℚ → ℚ) (self : CameraController) : Properties32 :=
  Properties32.from narrow self.properties

/-- Method `CameraController::move_center(delta)`: adds `delta` to the stored
center. -/
def CameraController.move_center (self : CameraController) (delta : ℚ × ℚ) : CameraController :=
  { self with properties :=
      { self.properties with center :=
          (self.properties.center.1 + delta.1, self.properties.center.2 + delta.2) } }

/-- Method `CameraController::zoom(center, delta)`: rejected when `delta > 0` and
`zoom ≥ 5.0`; otherwise multiplies zoom by `factor = 1 + delta`, pans the
center by `center · (1 − factor) · zoom` with the already-updated zoom,
and recomputes `math64 = 1` iff the new zoom is below `1 / 10_000`. -/
def CameraController.zoom (self : CameraController) (center : ℚ × ℚ) (delta : ℚ) :
    Bool × CameraController :=
  if delta > 0 ∧ self.properties.zoom ≥ 5 then (false, self)
  else
    let factor := 1 + delta
    let self1 : CameraController :=
      { self with properties := { self.properties with zoom := self.properties.zoom * factor } }
    let self2 := self1.move_center
      (center.1 * (1 - factor) * self1.properties.zoom,
       center.2 * (1 - factor) * self1.properties.zoom)
    (true,
      { self2 with properties :=
          { self2.properties with math64 := if self2.properties.zoom < 1 / 10000 then 1 else 0 } })

/-- Method `CameraController::process_events(event)`: translates one window event
into a view-state transition; the returned `Bool` is the "changed"
report consumed by the host to decide whether to request a redraw. -/
def CameraController.process_events (self : CameraController) (event : WindowEvent) :
    Bool × CameraController :=
  match event with
  | .keyboardInput state (some keycode) =>
    let is_pressed : Bool := state = ElementState.pressed
    let update : Bool := is_pressed = true
    match keycode with
    | .h | .left =>
      (update, self.move_center (-self.speed * self.properties.zoom, 0))
    | .j | .down =>
      (update, self.move_center (0, -self.speed * self.properties.zoom))
    | .k | .up =>
      (update, self.move_center (0, self.speed * self.properties.zoom))
    | .l | .right =>
      (update, self.move_center (self.speed * self.properties.zoom, 0))
    | .a | .pageUp =>
      (update, (self.zoom (0, 0) (-self.speed)).2)
    | .s | .pageDown =>
      (update, (self.zoom (0, 0) self.speed).2)
    | .space =>
      (update, { self with properties := Properties.default })
    | .other => (false, self)
  | .keyboardInput _ none => (false, self)
  | .mouseInputLeft state =>
    (false, { self with is_mouse_left_pressed := state = ElementState.pressed })
  | .cursorMoved x y =>
    let width := self.window_size.1
    let height := self.window_size.2
    let prev_position := self.mouse_position
    let curr_position : ℚ × ℚ := (x * 2 / width - 1, -(y * 2 / height - 1))
    let dx := curr_position.1 - prev_position.1
    let dy := curr_position.2 - prev_position.2
    let self1 := { self with mouse_position := curr_position }
    if self1.is_mouse_left_pressed then
      (true, self1.move_center (-dx * self1.properties.zoom * 2, -dy * self1.properties.zoom * 2))
    else
      (false, self1)
  | .touchpadMagnify delta =>
    self.zoom self.mouse_position delta
  | .mouseWheelLine _ y =>
    let delta := y * (11/100)
    self.zoom self.mouse_position (-delta)
  | .mouseWheelPixel _ y =>
    let delta := y * (1/1000)
    self.zoom self.mouse_position (-delta)
  | .otherEvent => (false, self)

/-- Method `CameraController::update_window_size(width, height)`: stores the new
pixel dimensions and recomputes `aspect = width as f32 / height as f32`. -/
def CameraController.update_window_size (self : CameraController) (width height : ℕ) :
    CameraController :=
  { self with
      window_size := ((width : ℚ), (height : ℚ))
      properties := { self.properties with aspect := f32DivNat width height } }

end Interactive

namespace Simple

/-- Rust struct `Properties` of `src/lib.rs`: single-precision center, zoom and
aspect. -/
structure Properties where
  center : ℚ × ℚ
  zoom : ℚ
  aspect : FloatVal
deriving DecidableEq, Repr

/-- Rust `impl Default for Properties` in `src/lib.rs`: center `(-0.75, 0.0)`,
zoom `2.4`, aspect `1.0`. -/
def Properties.default : Properties :=
  { center := (-3/4, 0)
    zoom := 12/5
    aspect := .finite 1 }

/-- Rust struct `CameraController` of `src/lib.rs`: view-state plus six key-hold flags
integrated once per frame. -/
structure CameraController where
  window_size : ℚ × ℚ
  properties : Properties
  speed : ℚ
  mouse_position : ℚ × ℚ
  is_mouse_left_pressed : Bool
  is_up_pressed : Bool
  is_down_pressed : Bool
  is_left_pressed : Bool
  is_right_pressed : Bool
  is_zoom_in_pressed : Bool
  is_zoom_out_pressed : Bool
deriving DecidableEq, Repr

/-- Method `CameraController::new(speed, width, height)` in `src/lib.rs`. -/
def CameraController.new (speed : ℚ) (width height : ℕ) : CameraController :=
  { window_size := ((width : ℚ), (height : ℚ))
    properties := Properties.default
    speed := speed
    mouse_position := (0, 0)
    is_mouse_left_pressed := false
    is_up_pressed := false
    is_down_pressed := false
    is_left_pressed := false
    is_right_pressed := false
    is_zoom_in_pressed := false
    is_zoom_out_pressed := false }

/-- Method `CameraController::process_events(event)` in `src/lib.rs`: key events
set the matching hold flag; Space resets the view-state; left mouse
press/release toggles the drag flag; a cursor move stores the new
normalized position (both axes negated screen coordinates) and, while
dragging, pans the center by `(dx * zoom, -(dy * zoom))`; a mouse-wheel
event scales the delta, rejects zoom-out past the `5.0` ceiling, and
otherwise pans toward the pointer and updates the zoom. -/
def CameraController.process_events (self : CameraController) (event : WindowEvent) :
    Bool × CameraController :=
  match event with
  | .keyboardInput state (some keycode) =>
    let is_pressed : Bool := state = ElementState.pressed
    match keycode with
    | .k | .up => (true, { self with is_up_pressed := is_pressed })
    | .h | .left => (true, { self with is_left_pressed := is_pressed })
    | .j | .down => (true, { self with is_down_pressed := is_pressed })
    | .l | .right => (true, { self with is_right_pressed := is_pressed })
    | .a | .pageUp => (true, { self with is_zoom_in_pressed := is_pressed })
    | .s | .pageDown => (true, { self with is_zoom_out_pressed := is_pressed })
    | .space => (true, { self with properties := Properties.default })
    | .other => (false, self)
  | .keyboardInput _ none => (false, self)
  | .mouseInputLeft state =>
    (false,
      { self with is_mouse_left_pressed :=
          if state = ElementState.pressed then true else false })
  | .cursorMoved x y =>
    let width := self.window_size.1
    let height := self.window_size.2
    let dx := -(x / width * 2 - 1) - self.mouse_position.1
    let dy := -(y / height * 2 - 1) - self.mouse_position.2
    let self1 := { self with mouse_position := (-(x / width * 2 - 1), -(y / height * 2 - 1)) }
    if self1.is_mouse_left_pressed then
      (true,
        { self1 with properties :=
            { self1.properties with center :=
                (self1.properties.center.1 + dx * self1.properties.zoom,
                 self1.properties.center.2 - dy * self1.properties.zoom) } })
    else
      (false, self1)
  | .mouseWheelLine _ y =>
    let delta := y * (11/100)
    if delta < 0 ∧ self.properties.zoom ≥ 5 then (false, self)
    else
      (true,
        { self with properties :=
            { self.properties with
                center :=
                  (self.properties.center.1 - self.mouse_position.1 * delta * self.properties.zoom,
                   self.properties.center.2 + self.mouse_position.2 * delta * self.properties.zoom)
                zoom := self.properties.zoom - delta * self.properties.zoom } })
  | .mouseWheelPixel _ y =>
    let delta := y * (1/1000)
    if delta < 0 ∧ self.properties.zoom ≥ 5 then (false, self)
    else
      (true,
        { self with properties :=
            { self.properties with
                center :=
                  (self.properties.center.1 - self.mouse_position.1 * delta * self.properties.zoom,
                   self.properties.center.2 + self.mouse_position.2 * delta * self.properties.zoom)
                zoom := self.properties.zoom - delta * self.properties.zoom } })
  | .touchpadMagnify _ => (false, self)
  | .otherEvent => (false, self)

/-- Method `CameraController::update_window_size(width, height)` in `src/lib.rs`. -/
def CameraController.update_window_size (self : CameraController) (width height : ℕ) :
    CameraController :=
  { self with
      window_size := ((width : ℚ), (height : ℚ))
      properties := { self.properties with aspect := f32DivNat width height } }

/-- Method `CameraController::update_camera()` in `src/lib.rs`: integrates the six
hold flags once per frame, each adding or subtracting `speed * zoom`; the
zoom-out increment clamps the zoom at `5.0` after the update. -/
def CameraController.update_camera (self : CameraController) : CameraController :=
  let self := if self.is_up_pressed then
      { self with properties := { self.properties with center :=
          (self.properties.center.1, self.properties.center.2 + self.speed * self.properties.zoom) } }
    else self
  let self := if self.is_down_pressed then
      { self with properties := { self.properties with center :=
          (self.properties.center.1, self.properties.center.2 - self.speed * self.properties.zoom) } }
    else self
  let self := if self.is_left_pressed then
      { self with properties := { self.properties with center :=
          (self.properties.center.1 - self.speed * self.properties.zoom, self.properties.center.2) } }
    else self
  let self := if self.is_right_pressed then
      { self with properties := { self.properties with center :=
          (self.properties.center.1 + self.speed * self.properties.zoom, self.properties.center.2) } }
    else self
  let self := if self.is_zoom_in_pressed then
      { self with properties := { self.properties with zoom :=
          self.properties.zoom - self.speed * self.properties.zoom } }
    else self
  let self := if self.is_zoom_out_pressed then
      let z := self.properties.zoom + self.speed * self.properties.zoom
      { self with properties := { self.properties with zoom := if z > 5 then 5 else z } }
    else self
  self

end Simple

namespace Minimal

/-- Rust struct `Properties` of `src/main.rs`: single-precision center and zoom plus a
padding word (the padding carries no state and is omitted). -/
structure Properties where
  center : ℚ × ℚ
  zoom : ℚ
deriving DecidableEq, Repr

/-- Rust struct `CameraController` of `src/main.rs`: view-state plus six key-hold
flags; no mouse or aspect tracking. -/
structure CameraController where
  properties : Properties
  speed : ℚ
  is_up_pressed : Bool
  is_down_pressed : Bool
  is_left_pressed : Bool
  is_right_pressed : Bool
  is_zoom_in_pressed : Bool
  is_zoom_out_pressed : Bool
deriving DecidableEq, Repr

/-- Method `CameraController::new(speed)` in `src/main.rs`: center `(-0.25, 0.0)`,
zoom `2.4`. -/
def CameraController.new (speed : ℚ) : CameraController :=
  { properties := { center := (-1/4, 0), zoom := 12/5 }
    speed := speed
    is_up_pressed := false
    is_down_pressed := false
    is_left_pressed := false
    is_right_pressed := false
    is_zoom_in_pressed := false
    is_zoom_out_pressed := false }

/-- Method `CameraController::process_events(event)` in `src/main.rs`: keyboard
events set the matching hold flag; everything else is a no-op. -/
def CameraController.process_events (self : CameraController) (event : WindowEvent) :
    Bool × CameraController :=
  match event with
  | .keyboardInput state (some keycode) =>
    let is_pressed : Bool := state = ElementState.pressed
    match keycode with
    | .k | .up => (true, { self with is_up_pressed := is_pressed })
    | .h | .left => (true, { self with is_left_pressed := is_pressed })
    | .j | .down => (true, { self with is_down_pressed := is_pressed })
    | .l | .right => (true, { self with is_right_pressed := is_pressed })
    | .a | .pageUp => (true, { self with is_zoom_in_pressed := is_pressed })
    | .s | .pageDown => (true, { self with is_zoom_out_pressed := is_pressed })
    | .space => (false, self)
    | .other => (false, self)
  | _ => (false, self)

/-- Method `CameraController::update_camera()` in `src/main.rs`: integrates the
six hold flags once per frame; no zoom ceiling. -/
def CameraController.update_camera (self : CameraController) : CameraController :=
  let self := if self.is_up_pressed then
      { self with properties := { self.properties with center :=
          (self.properties.center.1, self.properties.center.2 + self.speed * self.properties.zoom) } }
    else self
  let self := if self.is_down_pressed then
      { self with properties := { self.properties with center :=
          (self.properties.center.1, self.properties.center.2 - self.speed * self.properties.zoom) } }
    else self
  let self := if self.is_left_pressed then
      { self with properties := { self.properties with center :=
          (self.properties.center.1 - self.speed * self.properties.zoom, self.properties.center.2) } }
    else self
  let self := if self.is_right_pressed then
      { self with properties := { self.properties with center :=
          (self.properties.center.1 + self.speed * self.properties.zoom, self.properties.center.2) } }
    else self
  let self := if self.is_zoom_in_pressed then
      { self with properties := { self.properties with zoom :=
          self.properties.zoom - self.speed * self.properties.zoom } }
    else self
  let self := if self.is_zoom_out_pressed then
      { self with properties := { self.properties with zoom :=
          self.properties.zoom + self.speed * self.properties.zoom } }
    else self
  self

end Minimal

/-! ## Concrete states used by witnesses and counterexamples -/

/-- The interactive controller exactly as the host constructs it:
`CameraController::new(0.02, width, height)` with a square window. -/
def Interactive.defaultController : Interactive.CameraController :=
  Interactive.CameraController.new (1/50) 1 1

/-- An interactive controller over a 2×2 window whose left mouse button is
held (a drag in progress). -/
def Interactive.draggingController : Interactive.CameraController :=
  { Interactive.CameraController.new (1/50) 2 2 with is_mouse_left_pressed := true }

/-- An interactive controller sitting exactly at the zoom-out ceiling
`zoom = 5.0`. -/
def Interactive.atCeilingController : Interactive.CameraController :=
  { Interactive.defaultController with
      properties := { Interactive.defaultController.properties with zoom := 5 } }

/-- An interactive controller with a very small zoom `1/5000` (still above
the `1/10000` threshold, so `math64 = 0` is consistent). -/
def Interactive.tinyZoomController : Interactive.CameraController :=
  { Interactive.defaultController with
      properties := { Interactive.defaultController.properties with zoom := 1/5000 } }

/-- An interactive controller whose stored aspect is non-finite, as left
behind by `update_window_size(w, 0)`. -/
def Interactive.infAspectController : Interactive.CameraController :=
  { Interactive.defaultController with
      properties := { Interactive.defaultController.properties with aspect := .posInf } }

/-- The simple controller as the host constructs it
(`CameraController::new(0.02, width, height)` in `src/lib.rs`), over a
2×2 window. -/
def Simple.defaultController : Simple.CameraController :=
  Simple.CameraController.new (1/50) 2 2

/-- A simple controller whose left mouse button is held (a drag in
progress). -/
def Simple.draggingController : Simple.CameraController :=
  { Simple.defaultController with is_mouse_left_pressed := true }

/-- A simple controller sitting exactly at the zoom-out ceiling
`zoom = 5.0`. -/
def Simple.atCeilingController : Simple.CameraController :=
  { Simple.defaultController with
      properties := { Simple.defaultController.properties with zoom := 5 } }

/-! ## Helper lemmas shared between claims -/

/-- Lemma: `move_center` only touches the center: zoom, aspect and the
64-bit flag are untouched. -/
theorem Interactive.move_center_preserves (c : Interactive.CameraController) (d : ℚ × ℚ) :
    (c.move_center d).properties.zoom = c.properties.zoom ∧
    (c.move_center d).properties.aspect = c.properties.aspect ∧
    (c.move_center d).properties.math64 = c.properties.math64 := by
  simp [Interactive.CameraController.move_center]

/-- Lemma: the non-rejected branch of `CameraController::zoom` multiplies
the zoom by `1 + delta`, pans the center by the anchor term computed with
the updated zoom, recomputes `math64`, and keeps the aspect. -/
theorem Interactive.zoom_accepted (c : Interactive.CameraController) (anchor : ℚ × ℚ)
    (delta : ℚ) (h : ¬(delta > 0 ∧ c.properties.zoom ≥ 5)) :
    (c.zoom anchor delta).1 = true ∧
    (c.zoom anchor delta).2.properties.zoom = c.properties.zoom * (1 + delta) ∧
    (c.zoom anchor delta).2.properties.center =
      (c.properties.center.1 + anchor.1 * (1 - (1 + delta)) * (c.properties.zoom * (1 + delta)),
       c.properties.center.2 + anchor.2 * (1 - (1 + delta)) * (c.properties.zoom * (1 + delta))) ∧
    (c.zoom anchor delta).2.properties.aspect = c.properties.aspect ∧
    (c.zoom anchor delta).2.properties.math64 =
      (if c.properties.zoom * (1 + delta) < 1 / 10000 then 1 else 0) := by
  unfold Interactive.CameraController.zoom
  rw [if_neg h]
  simp [Interactive.CameraController.move_center]

/-- Lemma: the rejected branch of `CameraController::zoom` returns the
state untouched with a `false` report. -/
theorem Interactive.zoom_rejected (c : Interactive.CameraController) (anchor : ℚ × ℚ)
    (delta : ℚ) (h : delta > 0 ∧ c.properties.zoom ≥ 5) :
    c.zoom anchor delta = (false, c) := by
  unfold Interactive.CameraController.zoom
  rw [if_pos h]

/-! ## Claims -/

/-- C1: whenever the interactive zoom operation is not rejected (i.e., not
both `delta > 0` and `zoom ≥ 5.0`), it reports changed, the new zoom is
the old zoom times `factor = 1 + delta`, and the new center is the old
center plus `(anchor.x·(1−factor)·zoom', anchor.y·(1−factor)·zoom')`
where `zoom'` is the already-updated zoom. -/
theorem c1_interactive_zoom_formula (c : Interactive.CameraController) (anchor : ℚ × ℚ)
    (delta : ℚ) (h : ¬(delta > 0 ∧ c.properties.zoom ≥ 5)) :
    (c.zoom anchor delta).1 = true ∧
    (c.zoom anchor delta).2.properties.zoom = c.properties.zoom * (1 + delta) ∧
    (c.zoom anchor delta).2.properties.center =
      (c.properties.center.1 +
         anchor.1 * (1 - (1 + delta)) * (c.zoom anchor delta).2.properties.zoom,
       c.properties.center.2 +
         anchor.2 * (1 - (1 + delta)) * (c.zoom anchor delta).2.properties.zoom) := by
  obtain ⟨h1, h2, h3, -, -⟩ := Interactive.zoom_accepted c anchor delta h
  exact ⟨h1, h2, by rw [h2]; exact h3⟩

/-- C1 witness: from the defaults (center `(-0.75, 0)`, zoom `1.2`), a zoom
with `delta = -0.02` anchored at `(0.5, 0.5)` yields `zoom' = 1.176` and
`center' = (-0.73824, 0.01176)` — exactly the spec's end-to-end numbers,
since `147/125 = 1.176`, `-2307/3125 = -0.73824`, `147/12500 = 0.01176`. -/
theorem c1_interactive_zoom_formula_witness :
    (Interactive.defaultController.zoom (1/2, 1/2) (-(1:ℚ)/50)).2.properties.zoom = 147/125 ∧
    (Interactive.defaultController.zoom (1/2, 1/2) (-(1:ℚ)/50)).2.properties.center =
      (-2307/3125, 147/12500) := by
  obtain ⟨-, h2, h3⟩ := c1_interactive_zoom_formula Interactive.defaultController
    (1/2, 1/2) (-(1:ℚ)/50)
    (by norm_num [Interactive.defaultController, Interactive.CameraController.new,
      Interactive.Properties.default])
  constructor
  · rw [h2]
    norm_num [Interactive.defaultController, Interactive.CameraController.new,
      Interactive.Properties.default]
  · rw [h3, h2]
    norm_num [Interactive.defaultController, Interactive.CameraController.new,
      Interactive.Properties.default]

/-- C2 (code bug evidence): in the interactive variant the pan keys are
NOT press-edge-only.  At the constructed defaults, a press of `H` pans
`center.x` by `-speed·zoom = -0.024` (to `-387/500 = -0.774`) and reports
changed — but a RELEASE of `H` performs the very same pan while reporting
unchanged, because `process_events` calls `move_center` unconditionally
and only gates the returned `update` flag on `is_pressed`.  The state is
mutated on the release edge, contradicting the claim that a key release
leaves the view-state unchanged. -/
theorem c2_pan_key_release_divergence :
    (Interactive.defaultController.process_events
        (.keyboardInput .pressed (some .h))).1 = true ∧
    (Interactive.defaultController.process_events
        (.keyboardInput .pressed (some .h))).2.properties.center = (-387/500, 0) ∧
    (Interactive.defaultController.process_events
        (.keyboardInput .released (some .h))).1 = false ∧
    (Interactive.defaultController.process_events
        (.keyboardInput .released (some .h))).2.properties.center = (-387/500, 0) ∧
    Interactive.defaultController.properties.center = (-3/4, 0) ∧
    ((-387:ℚ)/500, (0:ℚ)) ≠ ((-3:ℚ)/4, (0:ℚ)) := by
  refine ⟨rfl, ?_, rfl, ?_, rfl, by norm_num⟩ <;>
  · simp [Interactive.defaultController, Interactive.CameraController.new,
      Interactive.CameraController.process_events, Interactive.CameraController.move_center,
      Interactive.Properties.default]
    norm_num

/-- C3: zoom-out past the ceiling is rejected atomically.  In the
interactive variant, `zoom(anchor, delta)` with `delta > 0` and
`zoom ≥ 5.0` returns the state untouched and reports unchanged; in the
simple drag/wheel-enhanced variant, a mouse-wheel event with negative
delta (line or pixel) while `zoom ≥ 5.0` likewise returns the state
untouched and reports unchanged.  No error is surfaced anywhere: the
operations are total. -/
theorem c3_zoom_out_ceiling_rejected :
    (∀ (c : Interactive.CameraController) (anchor : ℚ × ℚ) (delta : ℚ),
        delta > 0 → c.properties.zoom ≥ 5 → c.zoom anchor delta = (false, c)) ∧
    (∀ (s : Simple.CameraController) (x y : ℚ),
        y < 0 → s.properties.zoom ≥ 5 →
        s.process_events (.mouseWheelLine x y) = (false, s)) ∧
    (∀ (s : Simple.CameraController) (x y : ℚ),
        y < 0 → s.properties.zoom ≥ 5 →
        s.process_events (.mouseWheelPixel x y) = (false, s)) := by
  refine ⟨fun c anchor delta h1 h2 => Interactive.zoom_rejected c anchor delta ⟨h1, h2⟩, ?_, ?_⟩
  · intro s x y hy hz
    simp only [Simple.CameraController.process_events]
    rw [if_pos ⟨mul_neg_of_neg_of_pos hy (by norm_num), hz⟩]
  · intro s x y hy hz
    simp only [Simple.CameraController.process_events]
    rw [if_pos ⟨mul_neg_of_neg_of_pos hy (by norm_num), hz⟩]

/-- C3 witness: at `zoom = 5.0` exactly, an interactive zoom-out request
(`delta = 0.02 > 0`) and a simple-variant wheel zoom-out (line delta
`-1`) both return the input state unchanged and report `false`. -/
theorem c3_zoom_out_ceiling_rejected_witness :
    Interactive.atCeilingController.zoom (0, 0) (1/50) =
      (false, Interactive.atCeilingController) ∧
    Simple.atCeilingController.process_events (.mouseWheelLine 0 (-1)) =
      (false, Simple.atCeilingController) := by
  constructor
  · exact c3_zoom_out_ceiling_rejected.1 _ _ _ (by norm_num)
      (by norm_num [Interactive.atCeilingController, Interactive.defaultController,
        Interactive.CameraController.new, Interactive.Properties.default])
  · exact c3_zoom_out_ceiling_rejected.2.1 _ _ _ (by norm_num)
      (by norm_num [Simple.atCeilingController, Simple.defaultController,
        Simple.CameraController.new, Simple.Properties.default])

/-- Lemma: the interactive zoom keeps the zoom strictly positive as long
as the applied delta exceeds `-1` (so that `factor = 1 + delta > 0`). -/
theorem Interactive.zoom_pos (c : Interactive.CameraController) (anchor : ℚ × ℚ) (d : ℚ)
    (hz : 0 < c.properties.zoom) (hd : -1 < d) :
    0 < (c.zoom anchor d).2.properties.zoom := by
  by_cases h : d > 0 ∧ c.properties.zoom ≥ 5
  · rw [Interactive.zoom_rejected c anchor d h]
    exact hz
  · obtain ⟨-, h2, -, -, -⟩ := Interactive.zoom_accepted c anchor d h
    rw [h2]
    nlinarith

/-- Lemma: `z - δ·z = z·(1 - δ)` is positive when `z` is positive and
`δ < 1`. -/
theorem Simple.scaled_zoom_pos (z δ : ℚ) (hz : 0 < z) (hδ : δ < 1) : 0 < z - δ * z := by
  nlinarith

/-- Predicate: the zoom delta the interactive variant derives from the
event stays above `-1`, so the zoom factor `1 + delta` stays positive
(touchpad delta `> -1`; wheel deltas scaled by `0.11` / `0.001` below `1`,
since the wheel negates its delta before zooming).  Events that carry no
zoom delta satisfy it trivially. -/
def Interactive.eventDeltaBounded : WindowEvent → Prop
  | .touchpadMagnify d => -1 < d
  | .mouseWheelLine _ y => y * (11/100) < 1
  | .mouseWheelPixel _ y => y * (1/1000) < 1
  | _ => True

/-- Predicate: the zoom delta the simple variant derives from a wheel
event stays below `1`, so `zoom - delta·zoom` stays positive. -/
def Simple.eventDeltaBounded : WindowEvent → Prop
  | .mouseWheelLine _ y => y * (11/100) < 1
  | .mouseWheelPixel _ y => y * (1/1000) < 1
  | _ => True

set_option maxHeartbeats 2000000 in
/-- C4 (amended): `zoom > 0` is preserved by every operation of every
camera-controller variant PROVIDED the effective zoom factor stays
positive: the interactive variant needs the applied delta above `-1`
(`eventDeltaBounded`) and a pan speed with `|speed| < 1`; the simple
variant needs the scaled wheel delta below `1`; the per-frame
`update_camera` integrators need `|speed| < 1`.  The construction value
`speed = 0.02` satisfies these bounds, but the claim's "arbitrary delta
magnitude" does not hold — see the counterexample. -/
theorem c4_zoom_positive_amended :
    (∀ (c : Interactive.CameraController) (e : WindowEvent),
        0 < c.properties.zoom → -1 < c.speed → c.speed < 1 →
        Interactive.eventDeltaBounded e →
        0 < (c.process_events e).2.properties.zoom) ∧
    (∀ (c : Interactive.CameraController) (w h : ℕ),
        0 < c.properties.zoom → 0 < (c.update_window_size w h).properties.zoom) ∧
    (∀ (s : Simple.CameraController) (e : WindowEvent),
        0 < s.properties.zoom → Simple.eventDeltaBounded e →
        0 < (s.process_events e).2.properties.zoom) ∧
    (∀ (s : Simple.CameraController) (w h : ℕ),
        0 < s.properties.zoom → 0 < (s.update_window_size w h).properties.zoom) ∧
    (∀ s : Simple.CameraController,
        0 < s.properties.zoom → -1 < s.speed → s.speed < 1 →
        0 < s.update_camera.properties.zoom) ∧
    (∀ m : Minimal.CameraController,
        0 < m.properties.zoom → -1 < m.speed → m.speed < 1 →
        0 < m.update_camera.properties.zoom) ∧
    (∀ (m : Minimal.CameraController) (e : WindowEvent),
        0 < m.properties.zoom → 0 < (m.process_events e).2.properties.zoom) := by
  refine ⟨?_, ?_, ?_, ?_, ?_, ?_, ?_⟩
  · intro c e hz hs1 hs2 hb
    cases e with
    | keyboardInput st kc =>
      cases kc with
      | none => simpa [Interactive.CameraController.process_events] using hz
      | some k =>
        cases k <;> simp only [Interactive.CameraController.process_events] <;>
          first
            | simpa [Interactive.CameraController.move_center] using hz
            | exact Interactive.zoom_pos c _ _ hz (by linarith)
            | simpa [Interactive.Properties.default] using (by norm_num : (0:ℚ) < 6/5)
            | exact hz
    | mouseInputLeft st => simpa [Interactive.CameraController.process_events] using hz
    | cursorMoved x y =>
      simp only [Interactive.CameraController.process_events]
      split_ifs <;> simpa [Interactive.CameraController.move_center] using hz
    | touchpadMagnify d =>
      exact Interactive.zoom_pos c _ _ hz hb
    | mouseWheelLine x y =>
      exact Interactive.zoom_pos c _ _ hz (by simpa using neg_lt_neg hb)
    | mouseWheelPixel x y =>
      exact Interactive.zoom_pos c _ _ hz (by simpa using neg_lt_neg hb)
    | otherEvent => simpa [Interactive.CameraController.process_events] using hz
  · intro c w h hz
    simpa [Interactive.CameraController.update_window_size] using hz
  · intro s e hz hb
    cases e with
    | keyboardInput st kc =>
      cases kc with
      | none => simpa [Simple.CameraController.process_events] using hz
      | some k =>
        cases k <;> simp only [Simple.CameraController.process_events] <;>
          first
            | simpa [Simple.Properties.default] using (by norm_num : (0:ℚ) < 12/5)
            | simpa using hz
    | mouseInputLeft st => simpa [Simple.CameraController.process_events] using hz
    | cursorMoved x y =>
      simp only [Simple.CameraController.process_events]
      split_ifs <;> simpa using hz
    | touchpadMagnify d => simpa [Simple.CameraController.process_events] using hz
    | mouseWheelLine x y =>
      simp only [Simple.CameraController.process_events]
      split_ifs with hcond
      · simpa using hz
      · simpa using Simple.scaled_zoom_pos _ _ hz hb
    | mouseWheelPixel x y =>
      simp only [Simple.CameraController.process_events]
      split_ifs with hcond
      · simpa using hz
      · simpa using Simple.scaled_zoom_pos _ _ hz hb
    | otherEvent => simpa [Simple.CameraController.process_events] using hz
  · intro s w h hz
    simpa [Simple.CameraController.update_window_size] using hz
  · intro s hz hs1 hs2
    cases h1 : s.is_up_pressed <;> cases h2 : s.is_down_pressed <;>
      cases h3 : s.is_left_pressed <;> cases h4 : s.is_right_pressed <;>
      cases h5 : s.is_zoom_in_pressed <;> cases h6 : s.is_zoom_out_pressed <;>
      simp [Simple.CameraController.update_camera, h1, h2, h3, h4, h5, h6] <;>
      (try split_ifs) <;>
      first
        | exact hz
        | nlinarith [mul_pos hz (show (0:ℚ) < 1 + s.speed by linarith),
            mul_pos hz (show (0:ℚ) < 1 - s.speed by linarith),
            mul_pos (mul_pos hz (show (0:ℚ) < 1 - s.speed by linarith))
              (show (0:ℚ) < 1 + s.speed by linarith)]
  · intro m hz hs1 hs2
    cases h1 : m.is_up_pressed <;> cases h2 : m.is_down_pressed <;>
      cases h3 : m.is_left_pressed <;> cases h4 : m.is_right_pressed <;>
      cases h5 : m.is_zoom_in_pressed <;> cases h6 : m.is_zoom_out_pressed <;>
      simp [Minimal.CameraController.update_camera, h1, h2, h3, h4, h5, h6] <;>
      first
        | exact hz
        | nlinarith [mul_pos hz (show (0:ℚ) < 1 + m.speed by linarith),
            mul_pos hz (show (0:ℚ) < 1 - m.speed by linarith),
            mul_pos (mul_pos hz (show (0:ℚ) < 1 - m.speed by linarith))
              (show (0:ℚ) < 1 + m.speed by linarith)]
  · intro m e hz
    cases e <;> simp only [Minimal.CameraController.process_events] <;>
      first
        | simpa using hz
        | (rename_i st kc
           cases kc with
           | none => simpa using hz
           | some k => cases k <;> simpa using hz)

/-- C4 witness: at the constructed defaults (`speed = 0.02`, `zoom = 1.2`)
a bounded touchpad-magnify gesture (`delta = 1/2`) and a per-frame update
both keep the zoom positive. -/
theorem c4_zoom_positive_amended_witness :
    0 < (Interactive.defaultController.process_events
          (.touchpadMagnify (1/2))).2.properties.zoom ∧
    0 < Simple.defaultController.update_camera.properties.zoom := by
  constructor
  · exact c4_zoom_positive_amended.1 Interactive.defaultController _
      (by norm_num [Interactive.defaultController, Interactive.CameraController.new,
        Interactive.Properties.default])
      (by norm_num [Interactive.defaultController, Interactive.CameraController.new])
      (by norm_num [Interactive.defaultController, Interactive.CameraController.new])
      (by norm_num [Interactive.eventDeltaBounded])
  · exact c4_zoom_positive_amended.2.2.2.2.1 Simple.defaultController
      (by norm_num [Simple.defaultController, Simple.CameraController.new,
        Simple.Properties.default])
      (by norm_num [Simple.defaultController, Simple.CameraController.new])
      (by norm_num [Simple.defaultController, Simple.CameraController.new])

/-- C4 counterexample: the claim fails for arbitrary delta magnitudes.  At
the constructed defaults (`zoom = 1.2 > 0`), a touchpad-magnify event with
`delta = -2` drives the zoom to `1.2 · (1 + (-2)) = -1.2 < 0`: the
`zoom > 0` invariant is NOT preserved by every input event. -/
theorem c4_zoom_positive_counterexample :
    0 < Interactive.defaultController.properties.zoom ∧
    (Interactive.defaultController.process_events
        (.touchpadMagnify (-2))).2.properties.zoom = -6/5 ∧
    ¬ 0 < (Interactive.defaultController.process_events
        (.touchpadMagnify (-2))).2.properties.zoom := by
  have hval : (Interactive.defaultController.process_events
      (.touchpadMagnify (-2))).2.properties.zoom = -6/5 := by
    simp [Interactive.defaultController, Interactive.CameraController.new,
      Interactive.CameraController.process_events, Interactive.CameraController.zoom,
      Interactive.CameraController.move_center, Interactive.Properties.default]
    norm_num
  refine ⟨?_, hval, ?_⟩
  · norm_num [Interactive.defaultController, Interactive.CameraController.new,
      Interactive.Properties.default]
  · rw [hval]
    norm_num

/-- Predicate: the 64-bit-required flag is `1` exactly when the zoom is
strictly below `1/10_000`, and `0` otherwise — the consistency property
claim C5 asserts of every reachable interactive view-state. -/
def Interactive.math64Invariant (c : Interactive.CameraController) : Prop :=
  c.properties.math64 = if c.properties.zoom < 1/10000 then 1 else 0

/-- Lemma: `CameraController::zoom` preserves the 64-bit-flag consistency
predicate (the accepted branch recomputes the flag from the new zoom; the
rejected branch changes nothing). -/
theorem Interactive.zoom_math64_inv (c : Interactive.CameraController) (anchor : ℚ × ℚ)
    (d : ℚ) (h : Interactive.math64Invariant c) :
    Interactive.math64Invariant (c.zoom anchor d).2 := by
  by_cases hc : d > 0 ∧ c.properties.zoom ≥ 5
  · rw [Interactive.zoom_rejected c anchor d hc]
    exact h
  · obtain ⟨-, h2, -, -, h5⟩ := Interactive.zoom_accepted c anchor d hc
    unfold Interactive.math64Invariant
    rw [h5, h2]

/-- C5: the 64-bit-required flag is true exactly when `zoom < 0.0001`:
the consistency predicate holds at construction, is preserved by every
`process_events` transition and by `update_window_size`, and in a
consistent state whose zoom is exactly `0.0001` the flag is `0`
(strict less-than at the boundary). -/
theorem c5_math64_flag_iff_tiny_zoom :
    (∀ (s : ℚ) (w h : ℕ), Interactive.math64Invariant (Interactive.CameraController.new s w h)) ∧
    (∀ (c : Interactive.CameraController) (e : WindowEvent),
        Interactive.math64Invariant c → Interactive.math64Invariant (c.process_events e).2) ∧
    (∀ (c : Interactive.CameraController) (w h : ℕ),
        Interactive.math64Invariant c →
        Interactive.math64Invariant (c.update_window_size w h)) ∧
    (∀ c : Interactive.CameraController,
        Interactive.math64Invariant c → c.properties.zoom = 1/10000 →
        c.properties.math64 = 0) := by
  refine ⟨?_, ?_, ?_, ?_⟩
  · intro s w h
    simp [Interactive.math64Invariant, Interactive.CameraController.new,
      Interactive.Properties.default]
    norm_num
  · intro c e h
    cases e with
    | keyboardInput st kc =>
      cases kc with
      | none => simpa [Interactive.CameraController.process_events] using h
      | some k =>
        cases k <;>
          first
            | (simp only [Interactive.CameraController.process_events]
               exact Interactive.zoom_math64_inv c _ _ h)
            | simpa [Interactive.CameraController.process_events,
                Interactive.CameraController.move_center, Interactive.math64Invariant] using h
            | (simp [Interactive.CameraController.process_events,
                Interactive.math64Invariant, Interactive.Properties.default]
               norm_num)
    | mouseInputLeft st =>
      simpa [Interactive.CameraController.process_events, Interactive.math64Invariant] using h
    | cursorMoved x y =>
      simp only [Interactive.CameraController.process_events]
      split_ifs <;>
        simpa [Interactive.CameraController.move_center, Interactive.math64Invariant] using h
    | touchpadMagnify d =>
      simp only [Interactive.CameraController.process_events]
      exact Interactive.zoom_math64_inv c _ _ h
    | mouseWheelLine x y =>
      simp only [Interactive.CameraController.process_events]
      exact Interactive.zoom_math64_inv c _ _ h
    | mouseWheelPixel x y =>
      simp only [Interactive.CameraController.process_events]
      exact Interactive.zoom_math64_inv c _ _ h
    | otherEvent =>
      simpa [Interactive.CameraController.process_events, Interactive.math64Invariant] using h
  · intro c w h hinv
    simpa [Interactive.CameraController.update_window_size, Interactive.math64Invariant] using hinv
  · intro c hinv hz
    unfold Interactive.math64Invariant at hinv
    rw [hz] at hinv
    norm_num at hinv
    exact hinv

/-- C5 witness: the constructed default state is consistent, stays
consistent after a concrete zoom gesture, and the boundary case holds at
an explicit state with `zoom = 1/10_000` and flag `0`. -/
theorem c5_math64_flag_iff_tiny_zoom_witness :
    Interactive.math64Invariant
      ((Interactive.defaultController.process_events (.touchpadMagnify (-1/2))).2) := by
  exact c5_math64_flag_iff_tiny_zoom.2.1 Interactive.defaultController _
    (c5_math64_flag_iff_tiny_zoom.1 (1/50) 1 1)

/-- C6 (amended): drag panning.  In the interactive variant a cursor move
to pixel `(x, y)` while the left button is held pans the center by
`(-(P2.x - P1.x)·zoom·2, -(P2.y - P1.y)·zoom·2)` and reports changed,
where `P1` is the stored normalized position and
`P2 = (x·2/width − 1, −(y·2/height − 1))`; zoom is untouched.  In the
simple drag-capable variant the pan is the unamplified
`((P2.x - P1.x)·zoom, -(P2.y - P1.y)·zoom)` in its own stored
normalization `P2 = (−(x/width·2 − 1), −(y/height·2 − 1))` — note the
NEGATED y-component, where the claim asserted `+(P2.y - P1.y)·zoom`.
When the button is not held, both variants only update the stored
position and report unchanged. -/
theorem c6_drag_pan_amended :
    (∀ (c : Interactive.CameraController) (x y : ℚ),
        c.is_mouse_left_pressed = true →
        (c.process_events (.cursorMoved x y)).1 = true ∧
        (c.process_events (.cursorMoved x y)).2.properties.center =
          (c.properties.center.1 -
             ((x * 2 / c.window_size.1 - 1) - c.mouse_position.1) * c.properties.zoom * 2,
           c.properties.center.2 -
             ((-(y * 2 / c.window_size.2 - 1)) - c.mouse_position.2) * c.properties.zoom * 2) ∧
        (c.process_events (.cursorMoved x y)).2.properties.zoom = c.properties.zoom) ∧
    (∀ (c : Interactive.CameraController) (x y : ℚ),
        c.is_mouse_left_pressed = false →
        c.process_events (.cursorMoved x y) =
          (false, { c with mouse_position :=
              (x * 2 / c.window_size.1 - 1, -(y * 2 / c.window_size.2 - 1)) })) ∧
    (∀ (s : Simple.CameraController) (x y : ℚ),
        s.is_mouse_left_pressed = true →
        (s.process_events (.cursorMoved x y)).1 = true ∧
        (s.process_events (.cursorMoved x y)).2.properties.center =
          (s.properties.center.1 +
             ((-(x / s.window_size.1 * 2 - 1)) - s.mouse_position.1) * s.properties.zoom,
           s.properties.center.2 -
             ((-(y / s.window_size.2 * 2 - 1)) - s.mouse_position.2) * s.properties.zoom) ∧
        (s.process_events (.cursorMoved x y)).2.properties.zoom = s.properties.zoom) ∧
    (∀ (s : Simple.CameraController) (x y : ℚ),
        s.is_mouse_left_pressed = false →
        s.process_events (.cursorMoved x y) =
          (false, { s with mouse_position :=
              (-(x / s.window_size.1 * 2 - 1), -(y / s.window_size.2 * 2 - 1)) })) := by
  refine ⟨?_, ?_, ?_, ?_⟩
  · intro c x y hp
    simp [Interactive.CameraController.process_events, Interactive.CameraController.move_center, hp]
    constructor <;> ring
  · intro c x y hp
    simp [Interactive.CameraController.process_events, hp]
  · intro s x y hp
    simp [Simple.CameraController.process_events, hp]
    all_goals constructor <;> ring
  · intro s x y hp
    simp [Simple.CameraController.process_events, hp]

/-- C6 witness: a concrete drag in the interactive variant over a 2×2
window from stored `P1 = (0,0)` to pixel `(1,0)` (normalized
`P2 = (0,1)`) at zoom `1.2` pans the center by `(0, -1·1.2·2) = (0,-2.4)`
and reports changed. -/
theorem c6_drag_pan_amended_witness :
    (Interactive.draggingController.process_events (.cursorMoved 1 0)).1 = true ∧
    (Interactive.draggingController.process_events (.cursorMoved 1 0)).2.properties.center =
      (-3/4, -12/5) := by
  obtain ⟨h1, h2, -⟩ := c6_drag_pan_amended.1 Interactive.draggingController 1 0 rfl
  refine ⟨h1, ?_⟩
  rw [h2]
  norm_num [Interactive.draggingController, Interactive.CameraController.new,
    Interactive.Properties.default]

/-- C6 counterexample: the claim's simple-variant formula
`((P2.x−P1.x)·zoom, (P2.y−P1.y)·zoom)` is wrong in the y-component.  In
the simple variant over a 2×2 window with stored `P1 = (0,0)`, dragging to
pixel `(1,0)` gives `P2 = (0,1)` in its stored normalization, so the
claim predicts center `(-3/4, 0 + 1·2.4) = (-3/4, 12/5)` — but the code
executes `center[1] -= dy·zoom`, producing `(-3/4, -12/5)`. -/
theorem c6_drag_pan_counterexample :
    (Simple.draggingController.process_events (.cursorMoved 1 0)).2.properties.center =
      (-3/4, -12/5) ∧
    (Simple.draggingController.properties.center.1 +
        (0 - 0) * Simple.draggingController.properties.zoom,
     Simple.draggingController.properties.center.2 +
        (1 - 0) * Simple.draggingController.properties.zoom) = (-3/4, 12/5) ∧
    ((-3/4, -12/5) : ℚ × ℚ) ≠ (-3/4, 12/5) := by
  refine ⟨?_, ?_, by norm_num⟩
  · simp [Simple.draggingController, Simple.defaultController, Simple.CameraController.new,
      Simple.CameraController.process_events, Simple.Properties.default]
    norm_num
  · norm_num [Simple.draggingController, Simple.defaultController, Simple.CameraController.new,
      Simple.Properties.default]

/-- C7: for every double-precision view-state and every narrowing function
`f64 → f32`, the single-precision projection `properties32()` narrows the
center components and zoom field-for-field, passes the aspect through,
and stores `0` in the 64-bit-flag field regardless of the value of the
double-precision state's flag. -/
theorem c7_properties32_narrowing (narrow : ℚ → ℚ) (c : Interactive.CameraController) :
    (c.properties32 narrow).center =
      (narrow c.properties.center.1, narrow c.properties.center.2) ∧
    (c.properties32 narrow).zoom = narrow c.properties.zoom ∧
    (c.properties32 narrow).aspect = c.properties.aspect ∧
    (c.properties32 narrow).math64 = 0 :=
  ⟨rfl, rfl, rfl, rfl⟩

/-- Lemma: a zoom anchored at the origin never moves the center — in the
rejected branch nothing changes, and in the accepted branch the pan term
is `0 · (1 − factor) · zoom = 0`. -/
theorem Interactive.zoom_origin_center (c : Interactive.CameraController) (d : ℚ) :
    (c.zoom (0, 0) d).2.properties.center = c.properties.center := by
  by_cases hc : d > 0 ∧ c.properties.zoom ≥ 5
  · rw [Interactive.zoom_rejected c _ d hc]
  · obtain ⟨-, -, h3, -, -⟩ := Interactive.zoom_accepted c (0, 0) d hc
    rw [h3]
    simp

/-- C8 (amended): a non-rejected zoom anchored at the origin leaves the
center exactly unchanged (the anchor pan term is zero) and scales the
zoom by `1 + d`; the aspect is also unchanged, but — unlike the claim's
"only the zoom scalar changes" — the 64-bit flag is recomputed from the
new zoom and can change when the zoom crosses the `1/10_000` threshold.
The keyboard zoom actions A/PageUp and S/PageDown are anchored at the
origin and never move the center (on press, release, or rejection). -/
theorem c8_origin_anchored_zoom_amended :
    (∀ (c : Interactive.CameraController) (d : ℚ),
        ¬(d > 0 ∧ c.properties.zoom ≥ 5) →
        (c.zoom (0, 0) d).2.properties.center = c.properties.center ∧
        (c.zoom (0, 0) d).2.properties.zoom = c.properties.zoom * (1 + d) ∧
        (c.zoom (0, 0) d).2.properties.aspect = c.properties.aspect ∧
        (c.zoom (0, 0) d).2.properties.math64 =
          (if c.properties.zoom * (1 + d) < 1/10000 then 1 else 0)) ∧
    (∀ (c : Interactive.CameraController) (st : ElementState) (k : VirtualKeyCode),
        (k = .a ∨ k = .pageUp ∨ k = .s ∨ k = .pageDown) →
        (c.process_events (.keyboardInput st (some k))).2.properties.center =
          c.properties.center) := by
  constructor
  · intro c d hc
    obtain ⟨-, h2, -, h4, h5⟩ := Interactive.zoom_accepted c (0, 0) d hc
    exact ⟨Interactive.zoom_origin_center c d, h2, h4, h5⟩
  · intro c st k hk
    rcases hk with rfl | rfl | rfl | rfl <;>
      simp only [Interactive.CameraController.process_events] <;>
      exact Interactive.zoom_origin_center c _

/-- C8 witness: at the defaults, the keyboard zoom with `delta = 0.02`
anchored at the origin and a press of `A` both leave the center at the
default `(-0.75, 0)`. -/
theorem c8_origin_anchored_zoom_amended_witness :
    (Interactive.defaultController.zoom (0, 0) (1/50)).2.properties.center = (-3/4, 0) ∧
    (Interactive.defaultController.process_events
        (.keyboardInput .pressed (some .a))).2.properties.center = (-3/4, 0) := by
  obtain ⟨h1, -, -, -⟩ := c8_origin_anchored_zoom_amended.1 Interactive.defaultController (1/50)
    (by norm_num [Interactive.defaultController, Interactive.CameraController.new,
      Interactive.Properties.default])
  have h2 := c8_origin_anchored_zoom_amended.2 Interactive.defaultController .pressed .a
    (Or.inl rfl)
  constructor
  · rw [h1]
    norm_num [Interactive.defaultController, Interactive.CameraController.new,
      Interactive.Properties.default]
  · rw [h2]
    norm_num [Interactive.defaultController, Interactive.CameraController.new,
      Interactive.Properties.default]

/-- C8 counterexample: "only the zoom scalar changes" is false — a
non-rejected origin-anchored zoom can also change the 64-bit flag.  From
a consistent state with `zoom = 1/5000` and flag `0`, the delta `-9/10`
is not rejected, and the new zoom `1/50000 < 1/10000` flips the flag to
`1`. -/
theorem c8_origin_anchored_zoom_counterexample :
    ¬((-9/10 : ℚ) > 0 ∧ Interactive.tinyZoomController.properties.zoom ≥ 5) ∧
    Interactive.tinyZoomController.properties.math64 = 0 ∧
    (Interactive.tinyZoomController.zoom (0, 0) (-9/10)).2.properties.math64 = 1 := by
  refine ⟨?_, rfl, ?_⟩
  · norm_num [Interactive.tinyZoomController, Interactive.defaultController,
      Interactive.CameraController.new, Interactive.Properties.default]
  · simp [Interactive.tinyZoomController, Interactive.defaultController,
      Interactive.CameraController.new, Interactive.CameraController.zoom,
      Interactive.CameraController.move_center, Interactive.Properties.default]
    norm_num

/-- Lemma: `CameraController::zoom` never touches the aspect, in either
branch. -/
theorem Interactive.zoom_aspect_eq (c : Interactive.CameraController) (anchor : ℚ × ℚ)
    (d : ℚ) : (c.zoom anchor d).2.properties.aspect = c.properties.aspect := by
  by_cases hc : d > 0 ∧ c.properties.zoom ≥ 5
  · rw [Interactive.zoom_rejected c anchor d hc]
  · exact (Interactive.zoom_accepted c anchor d hc).2.2.2.1

/-- C9: the Space reset replaces the whole `Properties` record with the
construction defaults, so besides center, zoom and the 64-bit flag it
also resets the aspect to `1.0`, discarding the aspect previously
computed from the window size.  No `process_events` transition ever
writes any other value into the aspect (it is either left unchanged or
reset to the default `1.0`); only `update_window_size` recomputes it from
the window dimensions. -/
theorem c9_space_reset_discards_aspect :
    (∀ c : Interactive.CameraController,
        c.process_events (.keyboardInput .pressed (some .space)) =
          (true, { c with properties := Interactive.Properties.default })) ∧
    Interactive.Properties.default.aspect = .finite 1 ∧
    (∀ (c : Interactive.CameraController) (e : WindowEvent),
        (c.process_events e).2.properties.aspect = c.properties.aspect ∨
        (c.process_events e).2.properties.aspect = .finite 1) ∧
    (∀ (c : Interactive.CameraController) (w h : ℕ),
        (c.update_window_size w h).properties.aspect = f32DivNat w h) := by
  refine ⟨?_, rfl, ?_, ?_⟩
  · intro c
    simp [Interactive.CameraController.process_events]
  · intro c e
    cases e with
    | keyboardInput st kc =>
      cases kc with
      | none => left; simp [Interactive.CameraController.process_events]
      | some k =>
        cases k with
        | h =>
          left
          simp [Interactive.CameraController.process_events,
            Interactive.CameraController.move_center]
        | j =>
          left
          simp [Interactive.CameraController.process_events,
            Interactive.CameraController.move_center]
        | k =>
          left
          simp [Interactive.CameraController.process_events,
            Interactive.CameraController.move_center]
        | l =>
          left
          simp [Interactive.CameraController.process_events,
            Interactive.CameraController.move_center]
        | left =>
          left
          simp [Interactive.CameraController.process_events,
            Interactive.CameraController.move_center]
        | down =>
          left
          simp [Interactive.CameraController.process_events,
            Interactive.CameraController.move_center]
        | up =>
          left
          simp [Interactive.CameraController.process_events,
            Interactive.CameraController.move_center]
        | right =>
          left
          simp [Interactive.CameraController.process_events,
            Interactive.CameraController.move_center]
        | a =>
          left
          simp only [Interactive.CameraController.process_events]
          exact Interactive.zoom_aspect_eq c _ _
        | pageUp =>
          left
          simp only [Interactive.CameraController.process_events]
          exact Interactive.zoom_aspect_eq c _ _
        | s =>
          left
          simp only [Interactive.CameraController.process_events]
          exact Interactive.zoom_aspect_eq c _ _
        | pageDown =>
          left
          simp only [Interactive.CameraController.process_events]
          exact Interactive.zoom_aspect_eq c _ _
        | space =>
          right
          simp [Interactive.CameraController.process_events, Interactive.Properties.default]
        | other =>
          left
          simp [Interactive.CameraController.process_events]
    | mouseInputLeft st => left; simp [Interactive.CameraController.process_events]
    | cursorMoved x y =>
      left
      simp only [Interactive.CameraController.process_events]
      split_ifs <;> simp [Interactive.CameraController.move_center]
    | touchpadMagnify d =>
      left
      simp only [Interactive.CameraController.process_events]
      exact Interactive.zoom_aspect_eq c _ _
    | mouseWheelLine x y =>
      left
      simp only [Interactive.CameraController.process_events]
      exact Interactive.zoom_aspect_eq c _ _
    | mouseWheelPixel x y =>
      left
      simp only [Interactive.CameraController.process_events]
      exact Interactive.zoom_aspect_eq c _ _
    | otherEvent => left; simp [Interactive.CameraController.process_events]
  · intro c w h
    simp [Interactive.CameraController.update_window_size]

/-- Predicate: the event is a keyboard event for the Space key (either
edge) — the only `process_events` input that writes the aspect. -/
def isSpaceKeyEvent : WindowEvent → Bool
  | .keyboardInput _ (some .space) => true
  | _ => false

/-- C10 (amended): `update_window_size` divides `width / height` in
single precision without a guard, so for every width a resize with
`height = 0` stores a non-finite aspect (infinity, or NaN when the width
is also `0`) — in both the interactive and the simple variant.  No
`process_events` input other than a Space-key event touches the aspect at
all; however — contrary to the claim that only a later nonzero-height
resize restores a finite aspect — the Space reset replaces the whole
record with the defaults and thereby restores the finite aspect `1.0`.
A resize with nonzero height stores the finite `width / height`. -/
theorem c10_zero_height_aspect_amended :
    (∀ (c : Interactive.CameraController) (w : ℕ),
        ((c.update_window_size w 0).properties.aspect).isFinite = false) ∧
    (∀ (s : Simple.CameraController) (w : ℕ),
        ((s.update_window_size w 0).properties.aspect).isFinite = false) ∧
    (∀ (c : Interactive.CameraController) (e : WindowEvent),
        isSpaceKeyEvent e = false →
        (c.process_events e).2.properties.aspect = c.properties.aspect) ∧
    (∀ (c : Interactive.CameraController) (st : ElementState),
        (c.process_events (.keyboardInput st (some .space))).2.properties.aspect =
          .finite 1) ∧
    (∀ (c : Interactive.CameraController) (w h : ℕ), h ≠ 0 →
        ((c.update_window_size w h).properties.aspect).isFinite = true) := by
  refine ⟨?_, ?_, ?_, ?_, ?_⟩
  · intro c w
    simp only [Interactive.CameraController.update_window_size, f32DivNat]
    split_ifs <;> simp [FloatVal.isFinite]
  · intro s w
    simp only [Simple.CameraController.update_window_size, f32DivNat]
    split_ifs <;> simp [FloatVal.isFinite]
  · intro c e hne
    cases e with
    | keyboardInput st kc =>
      cases kc with
      | none => simp [Interactive.CameraController.process_events]
      | some k =>
        cases k with
        | h =>
          simp [Interactive.CameraController.process_events,
            Interactive.CameraController.move_center]
        | j =>
          simp [Interactive.CameraController.process_events,
            Interactive.CameraController.move_center]
        | k =>
          simp [Interactive.CameraController.process_events,
            Interactive.CameraController.move_center]
        | l =>
          simp [Interactive.CameraController.process_events,
            Interactive.CameraController.move_center]
        | left =>
          simp [Interactive.CameraController.process_events,
            Interactive.CameraController.move_center]
        | down =>
          simp [Interactive.CameraController.process_events,
            Interactive.CameraController.move_center]
        | up =>
          simp [Interactive.CameraController.process_events,
            Interactive.CameraController.move_center]
        | right =>
          simp [Interactive.CameraController.process_events,
            Interactive.CameraController.move_center]
        | a =>
          simp only [Interactive.CameraController.process_events]
          exact Interactive.zoom_aspect_eq c _ _
        | pageUp =>
          simp only [Interactive.CameraController.process_events]
          exact Interactive.zoom_aspect_eq c _ _
        | s =>
          simp only [Interactive.CameraController.process_events]
          exact Interactive.zoom_aspect_eq c _ _
        | pageDown =>
          simp only [Interactive.CameraController.process_events]
          exact Interactive.zoom_aspect_eq c _ _
        | space => simp [isSpaceKeyEvent] at hne
        | other => simp [Interactive.CameraController.process_events]
    | mouseInputLeft st => simp [Interactive.CameraController.process_events]
    | cursorMoved x y =>
      simp only [Interactive.CameraController.process_events]
      split_ifs <;> simp [Interactive.CameraController.move_center]
    | touchpadMagnify d =>
      simp only [Interactive.CameraController.process_events]
      exact Interactive.zoom_aspect_eq c _ _
    | mouseWheelLine x y =>
      simp only [Interactive.CameraController.process_events]
      exact Interactive.zoom_aspect_eq c _ _
    | mouseWheelPixel x y =>
      simp only [Interactive.CameraController.process_events]
      exact Interactive.zoom_aspect_eq c _ _
    | otherEvent => simp [Interactive.CameraController.process_events]
  · intro c st
    simp [Interactive.CameraController.process_events, Interactive.Properties.default]
  · intro c w h hne
    simp only [Interactive.CameraController.update_window_size, f32DivNat]
    rw [if_neg hne]
    simp [FloatVal.isFinite]

/-- C10 witness: a cursor move (not a Space key) leaves the non-finite
aspect in place, and a 16×9 resize stores a finite aspect. -/
theorem c10_zero_height_aspect_amended_witness :
    (Interactive.infAspectController.process_events
        (.cursorMoved 1 1)).2.properties.aspect = FloatVal.posInf ∧
    ((Interactive.defaultController.update_window_size 16 9).properties.aspect).isFinite =
      true := by
  constructor
  · have h := c10_zero_height_aspect_amended.2.2.1 Interactive.infAspectController
      (.cursorMoved 1 1) rfl
    rw [h]
    rfl
  · exact c10_zero_height_aspect_amended.2.2.2.2 Interactive.defaultController 16 9
      (by norm_num)

/-- C10 counterexample: the claim "no operation other than a later resize
with nonzero height restores a finite aspect" is false.  From a state
whose aspect is non-finite (`+∞`, as left by `update_window_size(w, 0)`),
a Space key press — which is not a resize — restores the finite default
aspect `1.0`. -/
theorem c10_zero_height_aspect_counterexample :
    (Interactive.infAspectController.properties.aspect).isFinite = false ∧
    ((Interactive.infAspectController.process_events
        (.keyboardInput .pressed (some .space))).2.properties.aspect).isFinite = true := by
  constructor
  · rfl
  · simp [Interactive.infAspectController, Interactive.defaultController,
      Interactive.CameraController.new, Interactive.CameraController.process_events,
      Interactive.Properties.default, FloatVal.isFinite]
